import Mathlib

/-!
Shallow embedding of the odds-tracking core of the repository
(`odds_tracker.py`, `database.py`).  Upstream payloads are modelled as a
JSON-like value type `JVal`; Python primitive coercions (`int`, `float`,
truthiness, `str.strip`/`split`) are modelled explicitly on character lists;
decimal odds are modelled as `Rat`; timestamps are modelled as integer
seconds and the ISO datetime parse is modelled as an integer parse (no claim
depends on the datetime format).  Fallible Python code is modelled with
`Option`/`Except`: `Option` where the source catches the error locally,
`Except PyErr` where an exception can propagate across function boundaries.
-/

/-- A JSON-like Python value as delivered by the upstream provider:
`None`, `bool`, `int`, `float` (modelled as `Rat`), `str`, `list`, `dict`
(insertion-ordered key/value pairs, keys assumed distinct). -/
inductive JVal where
  | null
  | bool (b : Bool)
  | int (n : Int)
  | num (q : Rat)
  | str (s : String)
  | list (xs : List JVal)
  | dict (kvs : List (String × JVal))

/-- Python exception classes that matter for control flow in the tracker:
`ValueError`/`TypeError`/`KeyError` are caught by the odds extractor's outer
handler, `AttributeError` is not. -/
inductive PyErr where
  | valueError
  | typeError
  | keyError
  | attributeError
deriving DecidableEq, Repr

instance {ε α : Type} [DecidableEq ε] [DecidableEq α] : DecidableEq (Except ε α) := fun x y =>
  match x, y with
  | .ok a, .ok b =>
    if h : a = b then .isTrue (by rw [h]) else .isFalse (fun hc => h (by injection hc))
  | .ok _, .error _ => .isFalse (fun hc => by injection hc)
  | .error _, .ok _ => .isFalse (fun hc => by injection hc)
  | .error e, .error f =>
    if h : e = f then .isTrue (by rw [h]) else .isFalse (fun hc => h (by injection hc))

/-- First binding of a key in a Python dict (keys are unique in Python;
our lists are read with first-wins semantics). -/
def dictLookup : List (String × JVal) → String → Option JVal
  | [], _ => none
  | (k, v) :: r, key => if k = key then some v else dictLookup r key

/-- Model of `d.get(k)` on a value already known to be a dict (returns `None`,
modelled as `Option.none`, when the key is absent). -/
def jGet (v : JVal) (k : String) : Option JVal :=
  match v with
  | .dict kvs => dictLookup kvs k
  | _ => none

/-- Model of `v.get(k, dflt)`: raises `AttributeError` when `v` is not a dict,
otherwise returns the binding or the default. -/
def pyGetAttr (v : JVal) (k : String) (dflt : JVal) : Except PyErr JVal :=
  match v with
  | .dict kvs => .ok ((dictLookup kvs k).getD dflt)
  | _ => .error .attributeError

/-- Python truthiness of a `JVal`. -/
def pyTruthy : JVal → Bool
  | .null => false
  | .bool b => b
  | .int n => n ≠ 0
  | .num q => q ≠ 0
  | .str s => s ≠ ""
  | .list xs => ¬ xs.isEmpty
  | .dict kvs => ¬ kvs.isEmpty

/-- Python `==` between a payload value and a string literal: equal exactly
when the value is a `str` with the same content. -/
def jStrEq (v : JVal) (s : String) : Bool :=
  match v with
  | .str t => t = s
  | _ => false

/-- Model of `str.strip()`: drop whitespace from both ends. -/
def trimChars (cs : List Char) : List Char :=
  ((cs.dropWhile Char.isWhitespace).reverse.dropWhile Char.isWhitespace).reverse

/-- Value of a nonempty digit string. -/
def digitsToNat (cs : List Char) : Option Nat :=
  if cs.isEmpty then none
  else cs.foldlM (fun acc c => if c.isDigit then some (acc * 10 + (c.toNat - 48)) else none) 0

/-- Python `int(s)` on a string: strip whitespace, optional sign, decimal
digits (digit-group underscores and non-ASCII digits are out of model). -/
def pyIntChars (cs : List Char) : Option Int :=
  match trimChars cs with
  | '+' :: ds => (digitsToNat ds).map (fun n => (n : Int))
  | '-' :: ds => (digitsToNat ds).map (fun n => -(n : Int))
  | ds => (digitsToNat ds).map (fun n => (n : Int))

/-- Python `int(s)` on a `String`. -/
def pyStrToInt (s : String) : Option Int :=
  pyIntChars s.data

/-- Split a character list at the first dot, if any. -/
def splitDot : List Char → (List Char × Option (List Char))
  | [] => ([], none)
  | '.' :: r => ([], some r)
  | c :: r => let p := splitDot r; (c :: p.1, p.2)

/-- Python `float(s)` on a string: strip, optional sign, decimal digits with
at most one dot and at least one digit (exponents, `inf`, `nan` are out of
model — no tracked payload uses them). -/
def pyStrToFloat (s : String) : Option Rat :=
  let t := trimChars s.data
  let sg : Int := match t with
    | '-' :: _ => -1
    | _ => 1
  let body := match t with
    | '+' :: r => r
    | '-' :: r => r
    | r => r
  match splitDot body with
  | (ip, none) => (digitsToNat ip).map (fun n => ((sg * n : Int) : Rat))
  | (ip, some fp) =>
    if ip.isEmpty ∧ fp.isEmpty then none
    else if (ip.all Char.isDigit) ∧ (fp.all Char.isDigit) then
      let ipn : Nat := (digitsToNat ip).getD 0
      let fpn : Nat := (digitsToNat fp).getD 0
      some ((sg : Rat) * ((ipn : Rat) + (fpn : Rat) / ((10 : Rat) ^ fp.length)))
    else none

/-- Truncation toward zero, as Python `int(float)` does. -/
def pyTrunc (q : Rat) : Int :=
  if 0 ≤ q then q.floor else -((-q).floor)

/-- Python `int(x)` on a `JVal`; `none` models the raised
`ValueError`/`TypeError`. -/
def pyInt : JVal → Option Int
  | .bool b => some (if b then 1 else 0)
  | .int n => some n
  | .num q => some (pyTrunc q)
  | .str s => pyStrToInt s
  | _ => none

/-- Python `float(x)` on a `JVal`; `none` models the raised
`ValueError`/`TypeError`. -/
def pyFloat : JVal → Option Rat
  | .bool b => some (if b then 1 else 0)
  | .int n => some ((n : Int) : Rat)
  | .num q => some q
  | .str s => pyStrToFloat s
  | _ => none

/-- Python `str(x)`; only used on event ids, which arrive as ints or
strings — container and float renderings are canonical approximations. -/
def pyStrOf : JVal → String
  | .null => "None"
  | .bool b => if b then "True" else "False"
  | .int n => toString n
  | .num q => toString q
  | .str s => s
  | .list _ => "[list]"
  | .dict _ => "[dict]"

/-- Worker for `splitWsChars`: accumulate the current piece in reverse. -/
def splitWsAux : List Char → List Char → List (List Char)
  | [], acc => [acc.reverse]
  | c :: r, acc =>
    if c.isWhitespace then acc.reverse :: splitWsAux r []
    else splitWsAux r (c :: acc)

/-- Python `s.split()` (no argument): split on whitespace runs, dropping
empty pieces. -/
def splitWsChars (cs : List Char) : List (List Char) :=
  (splitWsAux cs []).filter (fun p => ¬ p.isEmpty)

/-- Python `s.split(sep, 1)` for a one-character separator known to occur:
the part before the first occurrence and everything after it. -/
def splitFirst (c : Char) : List Char → Option (List Char × List Char)
  | [] => none
  | x :: r =>
    if x = c then some ([], r)
    else (splitFirst c r).map (fun p => (x :: p.1, p.2))

/-- Conversion applied by the tracker to one side of a structured score:
`int(d.get(k, 0)) if d.get(k) is not None else 0`.  An absent key or an
explicit `None` count as `0`; a present non-`None` value is coerced with
`int`, whose failure (`none`) the callers catch. -/
def scoreSideConv (o : Option JVal) : Option Int :=
  match o with
  | none => some 0
  | some .null => some 0
  | some w => pyInt w

/-- Embedding of `OddsTracker.parse_scores`: normalise a score representation of unknown
shape into an integer pair, defaulting to `(0, 0)` on any parse failure. -/
def parse_scores (v : JVal) : Int × Int :=
  match v with
  | .dict kvs =>
    match scoreSideConv (dictLookup kvs "home"), scoreSideConv (dictLookup kvs "away") with
    | some h, some a => (h, a)
    | _, _ => (0, 0)
  | .str s =>
    let cs := s.data
    if cs.contains '-' then
      match splitFirst '-' cs with
      | some (hs, as_) =>
        match pyIntChars hs, pyIntChars as_ with
        | some h, some a => (h, a)
        | _, _ => (0, 0)
      | none => (0, 0)
    else if cs.contains ':' then
      match splitFirst ':' cs with
      | some (hs, as_) =>
        match pyIntChars hs, pyIntChars as_ with
        | some h, some a => (h, a)
        | _, _ => (0, 0)
      | none => (0, 0)
    else if cs.contains ' ' ∧ (splitWsChars cs).length = 2 then
      match splitWsChars cs with
      | [hs, as_] =>
        match pyIntChars hs, pyIntChars as_ with
        | some h, some a => (h, a)
        | _, _ => (0, 0)
      | _ => (0, 0)
    else (0, 0)
  | _ => (0, 0)

/-- Embedding of `OddsTracker.get_pre_match_favorite`: lower decimal odds is the
favorite; ties resolve to away. -/
def get_pre_match_favorite (home_odds away_odds : Rat) : String :=
  if home_odds < away_odds then "home" else "away"

/-- Result of a match-time classification, mirroring the dict returned by
`OddsTracker.parse_match_time`; the `TT` field is passed through raw. -/
structure TimeGuess where
  status : String
  is_halftime : Bool
  is_playing : JVal

/-- Embedding of `OddsTracker.parse_match_time`: determine the coarse phase of a match
from its `time`/`ss` fields and sport tag.  Total: every unparseable field
falls back to its default, and unmatched sports or incomplete tennis scores
fall through to the `first_half` fallback. -/
def parse_match_time (match_data : JVal) : TimeGuess :=
  let time_info0 := (jGet match_data "time").getD (.dict [])
  let time_info := match time_info0 with
    | .dict kvs => JVal.dict kvs
    | _ => .dict []
  let is_playing := (jGet time_info "TT").getD (.bool false)
  let pm : Int × Int :=
    match pyInt ((jGet time_info "TM").getD (.int 0)),
          pyInt ((jGet time_info "TS").getD (.int 0)) with
    | some a, some b => (a, b)
    | _, _ => (0, 0)
  let passed_minutes := pm.1
  let sport := (jGet match_data "sport").getD (.str "")
  let fallback : TimeGuess := ⟨"first_half", false, is_playing⟩
  if jStrEq sport "tennis" then
    let scores := (jGet match_data "ss").getD (.dict [])
    match scores with
    | .dict kvs =>
      let p : Int × Int :=
        match scoreSideConv (dictLookup kvs "home"), scoreSideConv (dictLookup kvs "away") with
        | some a, some b => (a, b)
        | _, _ => (0, 0)
      if 1 ≤ p.1 + p.2 then ⟨"first_set_complete", true, is_playing⟩ else fallback
    | .str s =>
      let cs := s.data
      let pr : Option (Int × Int) :=
        if cs.contains '-' then
          match splitFirst '-' cs with
          | some (hs, as_) =>
            match pyIntChars hs, pyIntChars as_ with
            | some x, some y => some (x, y)
            | _, _ => none
          | none => none
        else if cs.contains ':' then
          match splitFirst ':' cs with
          | some (hs, as_) =>
            match pyIntChars hs, pyIntChars as_ with
            | some x, some y => some (x, y)
            | _, _ => none
          | none => none
        else some (0, 0)
      match pr with
      | some (x, y) => if 1 ≤ x + y then ⟨"first_set_complete", true, is_playing⟩ else fallback
      | none => fallback
    | _ => fallback
  else if jStrEq sport "basketball" then
    if 22 ≤ passed_minutes ∧ passed_minutes ≤ 26 then ⟨"halftime", true, is_playing⟩
    else if 26 < passed_minutes ∧ passed_minutes < 46 then ⟨"third_quarter", false, is_playing⟩
    else if 46 ≤ passed_minutes then ⟨"fourth_quarter", false, is_playing⟩
    else fallback
  else if jStrEq sport "handball" then
    if 28 ≤ passed_minutes ∧ passed_minutes ≤ 32 then ⟨"halftime", true, is_playing⟩
    else if 32 < passed_minutes then ⟨"second_half", false, is_playing⟩
    else fallback
  else fallback

/-- Accumulator for the three odds slots of the extractor. -/
structure OddsAcc where
  home : Option Rat
  away : Option Rat
  draw : Option Rat
deriving DecidableEq, Repr

/-- ASCII lowering of a character, enough for the market name tokens. -/
def lowerChar (c : Char) : Char :=
  if 'A' ≤ c ∧ c ≤ 'Z' then Char.ofNat (c.toNat + 32) else c

/-- Python `s.lower()` restricted to ASCII (the compared tokens are ASCII). -/
def asciiLower (s : String) : String :=
  ⟨s.data.map lowerChar⟩

/-- Home-side name tokens recognised by the market loop. -/
def marketTokenHome : List String := ["home", "1", "home team"]

/-- Away-side name tokens recognised by the market loop. -/
def marketTokenAway : List String := ["away", "2", "away team"]

/-- Draw name tokens recognised by the market loop. -/
def marketTokenDraw : List String := ["draw", "tie", "x"]

/-- Model of `float(odds_value)` guarded by `odds_value is not None`: assign the home
slot, raising where Python `float` would (the extractor's outer handler
catches it). -/
def assignHome (st : OddsAcc) (ov : Option JVal) : Except PyErr OddsAcc :=
  match ov with
  | none => .ok st
  | some w =>
    match pyFloat w with
    | some q => .ok { st with home := some q }
    | none => .error .valueError

/-- Away counterpart of `assignHome`. -/
def assignAway (st : OddsAcc) (ov : Option JVal) : Except PyErr OddsAcc :=
  match ov with
  | none => .ok st
  | some w =>
    match pyFloat w with
    | some q => .ok { st with away := some q }
    | none => .error .valueError

/-- Draw slot: the assignment is additionally guarded by
`sport != 'tennis'`, short-circuiting before the `float` call. -/
def assignDraw (sport : String) (st : OddsAcc) (ov : Option JVal) : Except PyErr OddsAcc :=
  match ov with
  | none => .ok st
  | some w =>
    if sport ≠ "tennis" then
      match pyFloat w with
      | some q => .ok { st with draw := some q }
      | none => .error .valueError
    else .ok st

/-- One iteration of the market outcome loop (`for i, odds_item in
enumerate(odds_list)` in `extract_odds_from_api_response`): identify the
outcome by header token, lowered name token or list position — the three
tests are OR-ed inside each branch — and assign its price.  `name.lower()`
on a non-string raises `AttributeError`, which nothing catches; it is only
reached when the header is not `'1'`, mirroring Python's short-circuit. -/
def assignOutcome (sport : String) (st : OddsAcc) (i : Nat) (item : JVal) : Except PyErr OddsAcc :=
  match item with
  | .dict d =>
    let odds_value := dictLookup d "odds"
    let header := (dictLookup d "header").getD (.str "")
    let name := (dictLookup d "name").getD (.str "")
    if jStrEq header "1" then assignHome st odds_value
    else
      match name with
      | .str s =>
        let nl := asciiLower s
        if nl ∈ marketTokenHome ∨ i = 0 then assignHome st odds_value
        else if jStrEq header "2" ∨ nl ∈ marketTokenAway ∨ i = 1 then assignAway st odds_value
        else if jStrEq header "X" ∨ jStrEq header "0" ∨ nl ∈ marketTokenDraw ∨ i = 2 then
          assignDraw sport st odds_value
        else .ok st
      | _ => .error .attributeError
  | _ => .ok st

/-- The full market outcome loop over an odds list. -/
def processMarketOdds (sport : String) (st : OddsAcc) (items : List JVal) : Except PyErr OddsAcc :=
  items.enum.foldlM (fun acc p => assignOutcome sport acc p.1 p.2) st

/-- Navigate a key path through nested dicts; any missing key or non-dict
intermediate yields `none`. -/
def navigatePath (odds_data : JVal) (path : List String) : Option JVal :=
  path.foldl
    (fun cur key =>
      match cur with
      | some (.dict kvs) => dictLookup kvs key
      | _ => none)
    (some odds_data)

/-- Is the value a Python dict? -/
def isDict : JVal → Bool
  | .dict _ => true
  | _ => false

/-- The candidate basketball/handball market paths, in source order. -/
def pathsToTry : List (List String) :=
  [["main", "sp", "full_time_result"],
   ["main", "sp", "game_lines"],
   ["main", "sp", "match_result"],
   ["main", "sp", "winner"],
   ["main", "sp", "money_line"],
   ["sp", "full_time_result"],
   ["sp", "game_lines"],
   ["sp", "match_result"],
   ["sp", "winner"],
   ["sp", "money_line"]]

/-- The basketball/handball path loop: odds found by earlier paths persist;
the loop breaks once both home and away are resolved after a market with at
least two priced outcomes was processed. -/
def tryPaths (sport : String) (odds_data : JVal) :
    List (List String) → OddsAcc → Except PyErr OddsAcc
  | [], st => .ok st
  | p :: rest, st =>
    match navigatePath odds_data p with
    | some cd =>
      if pyTruthy cd ∧ isDict cd then
        match (jGet cd "odds").getD (.list []) with
        | .list items =>
          if 2 ≤ items.length then
            match processMarketOdds sport st items with
            | .ok st' =>
              if st'.home.isSome ∧ st'.away.isSome then .ok st'
              else tryPaths sport odds_data rest st'
            | .error e => .error e
          else tryPaths sport odds_data rest st
        | _ => tryPaths sport odds_data rest st
      else tryPaths sport odds_data rest st
    | none => tryPaths sport odds_data rest st

/-- Price of the outcome at a fixed list position, when it is a dict
carrying an `odds` key; a failing `float` raises to the outer handler. -/
def posOdds (o : Option JVal) : Except PyErr (Option Rat) :=
  match o with
  | some (.dict d) =>
    match dictLookup d "odds" with
    | some w =>
      match pyFloat w with
      | some q => .ok (some q)
      | none => .error .valueError
    | none => .ok none
  | _ => .ok none

/-- Strategy 1: a simple ordered list of priced outcomes, positions 0/1/(2)
as home/away/(draw, non-tennis). -/
def simpleListOdds (sport : String) (xs : List JVal) : Except PyErr OddsAcc :=
  match posOdds (xs.get? 0) with
  | .error e => .error e
  | .ok h =>
    match posOdds (xs.get? 1) with
    | .error e => .error e
    | .ok a =>
      if 2 < xs.length ∧ sport ≠ "tennis" then
        match posOdds (xs.get? 2) with
        | .error e => .error e
        | .ok d => .ok ⟨h, a, d⟩
      else .ok ⟨h, a, none⟩

/-- Strategy 2 for tennis: the fixed `main.sp.to_win_match.odds` path with
positional home/away assignment. -/
def tennisOdds (odds_data : JVal) : Except PyErr OddsAcc :=
  match (jGet odds_data "main").getD (.dict []) with
  | .dict mkvs =>
    match (dictLookup mkvs "sp").getD (.dict []) with
    | .dict skvs =>
      match (dictLookup skvs "to_win_match").getD (.dict []) with
      | .dict tkvs =>
        match (dictLookup tkvs "odds").getD (.list []) with
        | .list xs =>
          if 2 ≤ xs.length then
            match posOdds (xs.get? 0) with
            | .error e => .error e
            | .ok h =>
              match posOdds (xs.get? 1) with
              | .error e => .error e
              | .ok a => .ok ⟨h, a, none⟩
          else .ok ⟨none, none, none⟩
        | _ => .ok ⟨none, none, none⟩
      | _ => .ok ⟨none, none, none⟩
    | _ => .ok ⟨none, none, none⟩
  | _ => .ok ⟨none, none, none⟩

/-- Strategy 3, `find_odds_recursive`: depth-bounded scan of nested dicts
for `odds` keys, collecting coercible prices in encounter order; the
contents of an `odds` key are collected before the other keys are visited,
and the recursion does not descend into lists.  The fuel argument is the
remaining depth budget (`depth > 4` cuts off, so the initial budget is 5). -/
def findOddsRec : Nat → JVal → List Rat
  | 0, _ => []
  | fuel + 1, v =>
    match v with
    | .dict kvs =>
      let fromOdds : List Rat :=
        match dictLookup kvs "odds" with
        | some (.list items) =>
          items.foldr
            (fun it acc =>
              match it with
              | .dict d =>
                match dictLookup d "odds" with
                | some w =>
                  match pyFloat w with
                  | some q => q :: acc
                  | none => acc
                | none => acc
              | _ => acc)
            []
        | some (.bool b) => [if b then (1 : Rat) else 0]
        | some (.int n) => [((n : Int) : Rat)]
        | some (.num q) => [q]
        | some (.str s) =>
          match pyStrToFloat s with
          | some q => [q]
          | none => []
        | _ => []
      fromOdds ++
        kvs.foldr (fun kv acc => if kv.1 = "odds" then acc else findOddsRec fuel kv.2 ++ acc) []
    | _ => []

/-- Body of `extract_odds_from_api_response` before its outer exception
handler. -/
def extractBody (odds_data : JVal) (sport : String) : Except PyErr OddsAcc :=
  match odds_data with
  | .list xs =>
    if 2 ≤ xs.length then simpleListOdds sport xs else .ok ⟨none, none, none⟩
  | .dict _ =>
    match
      (if sport = "tennis" then tennisOdds odds_data
       else if sport = "basketball" ∨ sport = "handball" then
         tryPaths sport odds_data pathsToTry ⟨none, none, none⟩
       else .ok ⟨none, none, none⟩) with
    | .error e => .error e
    | .ok st =>
      if st.home.isNone ∨ st.away.isNone then
        let found := findOddsRec 5 odds_data
        if 2 ≤ found.length then
          let home := match st.home with
            | none => found.get? 0
            | some q => some q
          let away := match st.away with
            | none => found.get? 1
            | some q => some q
          let draw :=
            if 2 < found.length ∧ sport ≠ "tennis" then
              match st.draw with
              | none => found.get? 2
              | some q => some q
            else st.draw
          .ok ⟨home, away, draw⟩
        else .ok st
      else .ok st
  | _ => .ok ⟨none, none, none⟩

/-- Embedding of `OddsTracker.extract_odds_from_api_response`: extract home/away/draw
odds from an arbitrarily shaped payload.  The outer handler turns
`ValueError`/`TypeError`/`KeyError` into the `(None, None, None)` result;
`AttributeError` (from `name.lower()` on a non-string) propagates. -/
def extract_odds_from_api_response (odds_data : JVal) (sport : String) : Except PyErr OddsAcc :=
  match extractBody odds_data sport with
  | .ok st => .ok st
  | .error .attributeError => .error .attributeError
  | .error _ => .ok ⟨none, none, none⟩

/-- One row of the `matches` table (`database.Match`).  `id` is the
autoincrement primary key; timestamps are integer seconds; `created_at` is
not modelled (nothing reads it). -/
structure Match where
  id : Nat
  event_id : String
  sport : String
  home_team : String
  away_team : String
  league_name : String
  start_time : Int
  pre_match_home_odds : Rat
  pre_match_away_odds : Rat
  pre_match_draw_odds : Option Rat
  pre_match_favorite : String
  status : String
  current_score_home : Int
  current_score_away : Int
  halftime_home_odds : Option Rat
  halftime_away_odds : Option Rat
  halftime_draw_odds : Option Rat
  start_notification_sent : Bool
  halftime_notification_sent : Bool
  favorite_trailing_at_halftime : Bool
  updated_at : Int
deriving DecidableEq, Repr

/-- The persistent store: the `matches` table plus the autoincrement
counter.  Commits are modelled as always succeeding (persistence failures
are an external concern in the spec). -/
structure Store where
  rows : List Match
  next_id : Nat
deriving DecidableEq, Repr

/-- Model of `db.query(Match).filter_by(event_id=eid).first()`. -/
def lookupStore (db : Store) (eid : String) : Option Match :=
  db.rows.find? (fun m => m.event_id = eid)

/-- Model of `db.add(new_match)` followed by a successful commit. -/
def insertRow (db : Store) (m : Match) : Store :=
  { rows := db.rows ++ [m], next_id := db.next_id + 1 }

/-- Mutate the row found by `event_id` (unique key, so at most one row can
match; with uniqueness the map touches exactly the row `first()` returns). -/
def updateByEventId (db : Store) (eid : String) (f : Match → Match) : Store :=
  { db with rows := db.rows.map (fun m => if m.event_id = eid then f m else m) }

/-- Coercion of a live score payload performed inside
`OddsTracker.is_favorite_trailing`: structured pairs via `get(k, 0)` plus a
`None` check and `int`, strings via `parse_scores`, anything else is a
failure (the method then returns `False`). -/
def coerceScores (current_score : JVal) : Option (Int × Int) :=
  match current_score with
  | .dict kvs =>
    let ci : JVal → Option Int := fun w =>
      match w with
      | .null => some 0
      | _ => pyInt w
    match ci ((dictLookup kvs "home").getD (.int 0)),
          ci ((dictLookup kvs "away").getD (.int 0)) with
    | some h, some a => some (h, a)
    | _, _ => none
  | .str s => some (parse_scores (.str s))
  | _ => none

/-- Embedding of `OddsTracker.is_favorite_trailing`: the frozen pre-match favorite is
currently behind on score; every coercion failure yields `false`. -/
def is_favorite_trailing (m : Match) (current_score : JVal) : Bool :=
  match coerceScores current_score with
  | none => false
  | some (h, a) =>
    if m.pre_match_favorite = "home" then h < a else a < h

/-- Python dict assignment `d[k] = w`: replace the first binding in place or
append a new one (call sites guard `isinstance(d, dict)`). -/
def setPairs : List (String × JVal) → String → JVal → List (String × JVal)
  | [], k, w => [(k, w)]
  | (k0, v0) :: r, k, w =>
    if k0 = k then (k, w) :: r else (k0, v0) :: setPairs r k w

/-- Model of the dict assignment used for the sport tag on a payload dict. -/
def jSetKey : JVal → String → JVal → JVal
  | .dict kvs, k, w => .dict (setPairs kvs k w)
  | v, _, _ => v

/-- The `ss` validation shared by both in-play branches: anything that is
neither a dict nor a string is replaced by `{}`. -/
def validScores (v : JVal) : JVal :=
  match v with
  | .dict kvs => .dict kvs
  | .str s => .str s
  | _ => .dict []

/-- In-play update of an existing row (`fetch_and_update_matches`, existing
branch): refresh scores, derive status from the phase, and on a halftime
observation with the favorite trailing set the sticky flag and write the
live odds into the halftime fields.  The branch is wrapped in a per-item
catch-all, and mutations made before the raise point (an `AttributeError`
escaping the extractor) stay on the session and are committed, so the model
applies them and drops only the halftime odds writes. -/
def updateExistingInPlay (sport : String) (now : Int) (match_data : JVal) (m0 : Match) : Match :=
  let md := jSetKey match_data "sport" (.str sport)
  let time_info := parse_match_time md
  let scores := validScores ((jGet md "ss").getD (.dict []))
  let p := parse_scores scores
  let m1 := { m0 with
    current_score_home := p.1
    current_score_away := p.2
    updated_at := now }
  if time_info.is_halftime then
    let m2 := { m1 with status := "halftime" }
    if is_favorite_trailing m2 scores then
      let m3 := { m2 with favorite_trailing_at_halftime := true }
      let current_odds := (jGet md "odds").getD (.dict [])
      if pyTruthy current_odds then
        match extract_odds_from_api_response current_odds sport with
        | .ok tri =>
          let m4 := match tri.home with
            | some q => { m3 with halftime_home_odds := some q }
            | none => m3
          let m5 := match tri.away with
            | some q => { m4 with halftime_away_odds := some q }
            | none => m4
          if tri.draw.isSome ∧ sport ≠ "tennis" then
            { m5 with halftime_draw_odds := tri.draw }
          else m5
        | .error _ => m3
      else m3
    else m2
  else { m1 with status := "live" }

/-- Body of the `try` in the upcoming loop (creation path of
`fetch_and_update_matches`): extract and validate pre-match odds, derive the
favorite and start time, then refresh (re-check hit) or insert the row.
`ValueError`/`TypeError` escape to the caller, which skips the item;
`AttributeError` (a non-dict `home`/`away`/`league` value) escapes the
caller too. -/
def upcomingTryBody (sport : String) (now : Int) (db : Store) (match_data : JVal)
    (event_id : String) (odds : JVal) : Except PyErr Store :=
  match extract_odds_from_api_response odds sport with
  | .error e => .error e
  | .ok tri =>
  if tri.home.isNone ∧ tri.away.isNone then .ok db
  else
  let home_odds := tri.home.getD 999
  let away_odds := tri.away.getD 999
  let draw_odds := if tri.draw.isSome ∧ sport ≠ "tennis" then tri.draw else none
  if home_odds = 999 ∨ away_odds = 999 then .ok db
  else
  let favorite := get_pre_match_favorite home_odds away_odds
  let start_time_v := (jGet match_data "time").getD .null
  let start_time : Int :=
    if pyTruthy start_time_v then
      match start_time_v with
      | .str s => (pyStrToInt s).getD now
      | _ => now
    else now
  match lookupStore db event_id with
  | some _ =>
    .ok (updateByEventId db event_id (fun m => { m with
      pre_match_home_odds := home_odds
      pre_match_away_odds := away_odds
      pre_match_draw_odds := draw_odds
      pre_match_favorite := favorite
      start_time := start_time
      updated_at := now }))
  | none =>
    match pyGetAttr ((jGet match_data "home").getD (.dict [])) "name" (.str "Unknown Home") with
    | .error e => .error e
    | .ok home_team =>
    match pyGetAttr ((jGet match_data "away").getD (.dict [])) "name" (.str "Unknown Away") with
    | .error e => .error e
    | .ok away_team =>
    match pyGetAttr ((jGet match_data "league").getD (.dict [])) "name" (.str "Unknown League") with
    | .error e => .error e
    | .ok league_name =>
    .ok (insertRow db {
      id := db.next_id
      event_id := event_id
      sport := sport
      home_team := pyStrOf home_team
      away_team := pyStrOf away_team
      league_name := pyStrOf league_name
      start_time := start_time
      pre_match_home_odds := home_odds
      pre_match_away_odds := away_odds
      pre_match_draw_odds := draw_odds
      pre_match_favorite := favorite
      status := "scheduled"
      current_score_home := 0
      current_score_away := 0
      halftime_home_odds := none
      halftime_away_odds := none
      halftime_draw_odds := none
      start_notification_sent := false
      halftime_notification_sent := false
      favorite_trailing_at_halftime := false
      updated_at := now })

/-- Processing of one item of the upcoming batch.  When a row for the event
already exists the guard `if not existing_match:` makes the whole item a
no-op.  Only `ValueError`/`TypeError` are caught per item; any other
exception propagates and aborts the batch. -/
def processUpcomingItem (sport : String) (now : Int) (db : Store) (match_data : JVal) :
    Except PyErr Store :=
  match pyGetAttr match_data "id" .null with
  | .error e => .error e
  | .ok idv =>
    if ¬ pyTruthy idv then .ok db
    else
      let event_id := pyStrOf idv
      match lookupStore db event_id with
      | some _ => .ok db
      | none =>
        let odds := (jGet match_data "odds").getD (.dict [])
        if ¬ pyTruthy odds then .ok db
        else
          match upcomingTryBody sport now db match_data event_id odds with
          | .ok db' => .ok db'
          | .error .valueError => .ok db
          | .error .typeError => .ok db
          | .error e => .error e

/-- Body of the live-synthesis branch (in-play observation with no stored
row): validate odds and team structures, derive favorite, scores, phase and
the initial trailing flag, then insert (or, on the sequentially-unreachable
re-check hit, update) the row with the live odds doubling as pre-match and
halftime odds and the start notification marked already sent. -/
def createFromLiveBody (sport : String) (now : Int) (db : Store) (match_data : JVal)
    (event_id : String) : Except PyErr Store :=
  let current_odds := (jGet match_data "odds").getD (.dict [])
  if ¬ pyTruthy current_odds then .ok db
  else
  match extract_odds_from_api_response current_odds sport with
  | .error e => .error e
  | .ok tri =>
  if tri.home.isNone ∨ tri.away.isNone then .ok db
  else
  let home_odds := tri.home.getD 999
  let away_odds := tri.away.getD 999
  let draw_odds := if tri.draw.isSome ∧ sport ≠ "tennis" then tri.draw else none
  if home_odds = 999 ∨ away_odds = 999 then .ok db
  else
  let favorite := get_pre_match_favorite home_odds away_odds
  let home_team_data := (jGet match_data "home").getD (.dict [])
  let away_team_data := (jGet match_data "away").getD (.dict [])
  let league_data := (jGet match_data "league").getD (.dict [])
  if ¬ (isDict home_team_data ∧ isDict away_team_data) then .ok db
  else
  let home_team := (jGet home_team_data "name").getD (.str "Unknown Home")
  let away_team := (jGet away_team_data "name").getD (.str "Unknown Away")
  let league_name :=
    if isDict league_data then (jGet league_data "name").getD (.str "Unknown League")
    else .str "Unknown League"
  let scores := validScores ((jGet match_data "ss").getD (.dict []))
  let p := parse_scores scores
  let md := jSetKey match_data "sport" (.str sport)
  let time_info := parse_match_time md
  let st_tr : String × Bool :=
    if time_info.is_halftime then
      ("halftime", if favorite = "home" then p.1 < p.2 else p.2 < p.1)
    else ("live", false)
  match lookupStore db event_id with
  | some _ =>
    .ok (updateByEventId db event_id (fun m => { m with
      status := st_tr.1
      current_score_home := p.1
      current_score_away := p.2
      favorite_trailing_at_halftime := st_tr.2
      halftime_home_odds := some home_odds
      halftime_away_odds := some away_odds
      halftime_draw_odds := draw_odds
      updated_at := now }))
  | none =>
    .ok (insertRow db {
      id := db.next_id
      event_id := event_id
      sport := sport
      home_team := pyStrOf home_team
      away_team := pyStrOf away_team
      league_name := pyStrOf league_name
      start_time := now - 1800
      pre_match_home_odds := home_odds
      pre_match_away_odds := away_odds
      pre_match_draw_odds := draw_odds
      pre_match_favorite := favorite
      status := st_tr.1
      current_score_home := p.1
      current_score_away := p.2
      halftime_home_odds := some home_odds
      halftime_away_odds := some away_odds
      halftime_draw_odds := draw_odds
      start_notification_sent := true
      halftime_notification_sent := false
      favorite_trailing_at_halftime := st_tr.2
      updated_at := now })

/-- Processing of one item of the in-play batch.  The existing-row branch
and the synthesis branch each sit inside a per-item `except Exception`
handler; only the initial `.get('id')` on a non-dict item can propagate. -/
def processInPlayItem (sport : String) (now : Int) (db : Store) (match_data : JVal) :
    Except PyErr Store :=
  match pyGetAttr match_data "id" .null with
  | .error e => .error e
  | .ok idv =>
    if ¬ pyTruthy idv then .ok db
    else
      let event_id := pyStrOf idv
      match lookupStore db event_id with
      | some _ =>
        .ok (updateByEventId db event_id (updateExistingInPlay sport now match_data))
      | none =>
        match createFromLiveBody sport now db match_data event_id with
        | .ok db' => .ok db'
        | .error _ => .ok db

/-- The upcoming loop over a fetched batch: per-item commits persist, and an
uncaught exception aborts the remaining items of the batch (the outer
handler of `fetch_and_update_matches` logs and returns). -/
def processUpcomingBatch (sport : String) (now : Int) : Store → List JVal → Store
  | db, [] => db
  | db, x :: xs =>
    match processUpcomingItem sport now db x with
    | .ok db' => processUpcomingBatch sport now db' xs
    | .error _ => db

/-- The in-play loop over a fetched batch, with the same abort semantics. -/
def processInPlayBatch (sport : String) (now : Int) : Store → List JVal → Store
  | db, [] => db
  | db, x :: xs =>
    match processInPlayItem sport now db x with
    | .ok db' => processInPlayBatch sport now db' xs
    | .error _ => db

/-- One observation handed to `fetch_and_update_matches`: an item of an
upcoming batch or of an in-play batch, with its sport and poll instant. -/
inductive Obs where
  | upcoming (sport : String) (now : Int) (item : JVal)
  | inplay (sport : String) (now : Int) (item : JVal)

/-- Effect of one observation on the store (an uncaught per-item exception
leaves the store at its last committed state). -/
def runObs (db : Store) : Obs → Store
  | .upcoming sport now item =>
    match processUpcomingItem sport now db item with
    | .ok db' => db'
    | .error _ => db
  | .inplay sport now item =>
    match processInPlayItem sport now db item with
    | .ok db' => db'
    | .error _ => db

/-- Effect of a sequence of observations, in fetch order. -/
def runObsList (db : Store) : List Obs → Store
  | [] => db
  | o :: os => runObsList (runObs db o) os

/-- Embedding of `OddsTracker.get_matches_for_notification`: the two selector queries.
The external subscriber/entitlement lookup is a per-sport count; the two
`datetime.now` reads of the source are modelled as the same instant.
`int(total_seconds()/60)` on integer seconds is truncating division. -/
def get_matches_for_notification (db : Store) (now : Int) (subCount : String → Nat) :
    List Match × List Match :=
  let starting := db.rows.filter (fun m =>
    m.status = "scheduled" ∧ now + 1500 ≤ m.start_time ∧ m.start_time ≤ now + 2100 ∧
    m.start_notification_sent = false)
  let filtered_starting := starting.filter (fun m =>
    0 < subCount m.sport ∧
    25 ≤ (m.start_time - now) / 60 ∧ (m.start_time - now) / 60 ≤ 35)
  let halftime_matches := db.rows.filter (fun m =>
    m.status = "halftime" ∧ m.favorite_trailing_at_halftime = true ∧
    m.halftime_notification_sent = false)
  let filtered_halftime := halftime_matches.filter (fun m => 0 < subCount m.sport)
  (filtered_starting, filtered_halftime)

/-- Embedding of `OddsTracker.mark_notification_sent`: set the sticky flag of the row
with the given primary key for the given notification kind. -/
def mark_notification_sent (db : Store) (match_id : Nat) (notification_type : String) : Store :=
  { db with rows := db.rows.map (fun m =>
      if m.id = match_id then
        if notification_type = "match_start" then { m with start_notification_sent := true }
        else if notification_type = "halftime_trailing" then
          { m with halftime_notification_sent := true }
        else m
      else m) }

/-- One operation of the running system: a fetch observation or a
notification mark. -/
inductive SysOp where
  | obs (o : Obs)
  | mark (mid : Nat) (t : String)

/-- Effect of one system operation on the store. -/
def runSysOp (db : Store) : SysOp → Store
  | .obs o => runObs db o
  | .mark mid t => mark_notification_sent db mid t

/-- Effect of a sequence of system operations. -/
def runSysList (db : Store) : List SysOp → Store
  | [] => db
  | s :: ss => runSysList (runSysOp db s) ss

/-- A stored basketball row used by the concrete instances below. -/
def baseMatch : Match where
  id := 1
  event_id := "7"
  sport := "basketball"
  home_team := "A"
  away_team := "B"
  league_name := "L"
  start_time := 0
  pre_match_home_odds := 2
  pre_match_away_odds := 3
  pre_match_draw_odds := none
  pre_match_favorite := "home"
  status := "live"
  current_score_home := 0
  current_score_away := 0
  halftime_home_odds := none
  halftime_away_odds := none
  halftime_draw_odds := none
  start_notification_sent := false
  halftime_notification_sent := false
  favorite_trailing_at_halftime := false
  updated_at := 0

/-- An empty store (fresh autoincrement counter). -/
def emptyStore : Store := ⟨[], 1⟩

/-- An in-play basketball payload for event `"7"` at minute 24 (inside the
halftime window) with score 1-2 and the given live odds. -/
def hpObs (ho ao : Rat) : JVal :=
  .dict [("id", .str "7"), ("ss", .str "1-2"), ("time", .dict [("TM", .int 24)]),
         ("odds", .list [.dict [("odds", .num ho)], .dict [("odds", .num ao)]])]

/-- An upcoming payload with the given event id and priced outcomes. -/
def upObs (eid : String) (ho ao : Rat) : JVal :=
  .dict [("id", .str eid),
         ("odds", .list [.dict [("odds", .num ho)], .dict [("odds", .num ao)]])]

/-- An in-play payload for the given sport whose `time.TM` field carries
the given value, as handed to `parse_match_time` by the in-play loop. -/
def timedObs (sport : String) (tm : JVal) : JVal :=
  .dict [("sport", .str sport), ("time", .dict [("TM", tm)])]

/-- An upcoming payload whose `home` field is a bare string; valid odds, but
`.get('name')` on the string raises `AttributeError`. -/
def badHomeObs : JVal :=
  .dict [("id", .str "8"),
         ("odds", .list [.dict [("odds", .num 2)], .dict [("odds", .num 3)]]),
         ("home", .str "Oops")]

/-- A row returned by an `event_id` lookup carries that `event_id`. -/
lemma lookupStore_event_id {db : Store} {e : String} {m : Match}
    (h : lookupStore db e = some m) : m.event_id = e := by
  unfold lookupStore at h
  have hp := List.find?_some h
  exact of_decide_eq_true hp

/-- The lemma that `find?` commutes with a map that does not change the predicate. -/
lemma find?_map_pred {α} (g : α → α) (p : α → Bool) (h : ∀ a, p (g a) = p a)
    (l : List α) : (l.map g).find? p = (l.find? p).map g := by
  induction l with
  | nil => rfl
  | cons a l ih =>
    cases hp : p a with
    | true => simp [List.find?, h a, hp]
    | false => simp [List.find?, h a, hp, ih]

/-- The lookup after a keyed update, when the update preserves keys. -/
lemma lookup_update (db : Store) (eid : String) (f : Match → Match)
    (hf : ∀ m, (f m).event_id = m.event_id) (e : String) :
    lookupStore (updateByEventId db eid f) e =
      (lookupStore db e).map (fun m => if m.event_id = eid then f m else m) := by
  unfold lookupStore updateByEventId
  exact find?_map_pred _ _
    (fun m => by by_cases hm : m.event_id = eid <;> simp [hm, hf m]) db.rows

/-- The lookup after an insert: the stored rows win, the new row answers
only queries for its own key. -/
lemma lookup_insert (db : Store) (r : Match) (e : String) :
    lookupStore (insertRow db r) e =
      (lookupStore db e).or (if r.event_id = e then some r else none) := by
  unfold lookupStore insertRow
  rw [List.find?_append]
  by_cases hr : r.event_id = e <;> simp [List.find?, hr]

/-- Shape of a successful upcoming-item body when no row for the event
exists (the only way the caller reaches it): either nothing happened or a
row keyed by the event was inserted.  The refresh branch sits behind a
re-check of the same store and is unreachable here. -/
lemma upcomingTryBody_shape {sport : String} {now : Int} {db : Store} {md : JVal}
    {eid : String} {odds : JVal} {db' : Store}
    (hne : lookupStore db eid = none)
    (hok : upcomingTryBody sport now db md eid odds = .ok db') :
    db' = db ∨ ∃ r : Match, r.event_id = eid ∧ db' = insertRow db r := by
  unfold upcomingTryBody at hok
  simp only [] at hok
  repeat' split at hok
  all_goals first
    | (cases hok <;> first | exact Or.inl rfl | exact Or.inr ⟨_, rfl, rfl⟩)
    | simp_all

/-- Shape of a successful live-synthesis body when no row for the event
exists: nothing happened or a row keyed by the event was inserted; the
update branch sits behind a re-check of the same store and is unreachable
here. -/
lemma createFromLiveBody_shape {sport : String} {now : Int} {db : Store} {md : JVal}
    {eid : String} {db' : Store}
    (hne : lookupStore db eid = none)
    (hok : createFromLiveBody sport now db md eid = .ok db') :
    db' = db ∨ ∃ r : Match, r.event_id = eid ∧ db' = insertRow db r := by
  unfold createFromLiveBody at hok
  simp only [] at hok
  repeat' split at hok
  all_goals first
    | (cases hok <;> first | exact Or.inl rfl | exact Or.inr ⟨_, rfl, rfl⟩)
    | simp_all

/-- The in-play update of an existing row keeps its `event_id`. -/
lemma updateExistingInPlay_event_id (sport : String) (now : Int) (md : JVal) (m : Match) :
    (updateExistingInPlay sport now md m).event_id = m.event_id := by
  unfold updateExistingInPlay
  simp only []
  repeat' split
  all_goals rfl

/-- The in-play update of an existing row keeps its primary key. -/
lemma updateExistingInPlay_id (sport : String) (now : Int) (md : JVal) (m : Match) :
    (updateExistingInPlay sport now md m).id = m.id := by
  unfold updateExistingInPlay
  simp only []
  repeat' split
  all_goals rfl

/-- The in-play update of an existing row never touches the start
notification flag. -/
lemma updateExistingInPlay_start_flag (sport : String) (now : Int) (md : JVal) (m : Match) :
    (updateExistingInPlay sport now md m).start_notification_sent = m.start_notification_sent := by
  unfold updateExistingInPlay
  simp only []
  repeat' split
  all_goals rfl

/-- The in-play update of an existing row never touches the halftime
notification flag. -/
lemma updateExistingInPlay_halftime_flag (sport : String) (now : Int) (md : JVal) (m : Match) :
    (updateExistingInPlay sport now md m).halftime_notification_sent =
      m.halftime_notification_sent := by
  unfold updateExistingInPlay
  simp only []
  repeat' split
  all_goals rfl

/-- The in-play update of an existing row only ever sets the trailing flag
to `true`, never back to `false`. -/
lemma updateExistingInPlay_trailing_mono (sport : String) (now : Int) (md : JVal) (m : Match)
    (hf : m.favorite_trailing_at_halftime = true) :
    (updateExistingInPlay sport now md m).favorite_trailing_at_halftime = true := by
  unfold updateExistingInPlay
  simp only []
  repeat' split
  all_goals first | rfl | exact hf

/-- Shape of one full upcoming-item step: no change, or an insert of a row
whose key had no stored row. -/
lemma processUpcomingItem_shape {sport : String} {now : Int} {db : Store} {item : JVal}
    {db' : Store} (hok : processUpcomingItem sport now db item = .ok db') :
    db' = db ∨ ∃ r : Match, lookupStore db r.event_id = none ∧ db' = insertRow db r := by
  unfold processUpcomingItem at hok
  cases hid : pyGetAttr item "id" .null with
  | error e => rw [hid] at hok; cases hok
  | ok idv =>
    rw [hid] at hok
    simp only [] at hok
    by_cases ht : pyTruthy idv = true
    · rw [if_neg (not_not_intro ht)] at hok
      cases hl : lookupStore db (pyStrOf idv) with
      | some m => rw [hl] at hok; cases hok; exact Or.inl rfl
      | none =>
        rw [hl] at hok
        by_cases ho : pyTruthy ((jGet item "odds").getD (.dict [])) = true
        · rw [if_neg (not_not_intro ho)] at hok
          cases htb : upcomingTryBody sport now db item (pyStrOf idv)
              ((jGet item "odds").getD (.dict [])) with
          | ok db2 =>
            rw [htb] at hok
            cases hok
            rcases upcomingTryBody_shape hl htb with h | ⟨r, hr, hi⟩
            · exact Or.inl h
            · exact Or.inr ⟨r, by rw [hr]; exact hl, hi⟩
          | error e =>
            rw [htb] at hok
            cases e <;> cases hok <;> exact Or.inl rfl
        · rw [if_pos ho] at hok
          cases hok
          exact Or.inl rfl
    · rw [if_pos ht] at hok
      cases hok
      exact Or.inl rfl

/-- Shape of one full in-play item step: no change, an in-place update of
the stored row for the event, or an insert of a row whose key had no stored
row. -/
lemma processInPlayItem_shape {sport : String} {now : Int} {db : Store} {item : JVal}
    {db' : Store} (hok : processInPlayItem sport now db item = .ok db') :
    db' = db ∨
    (∃ eid m0, lookupStore db eid = some m0 ∧
      db' = updateByEventId db eid (updateExistingInPlay sport now item)) ∨
    ∃ r : Match, lookupStore db r.event_id = none ∧ db' = insertRow db r := by
  unfold processInPlayItem at hok
  cases hid : pyGetAttr item "id" .null with
  | error e => rw [hid] at hok; cases hok
  | ok idv =>
    rw [hid] at hok
    simp only [] at hok
    by_cases ht : pyTruthy idv = true
    · rw [if_neg (not_not_intro ht)] at hok
      cases hl : lookupStore db (pyStrOf idv) with
      | some m =>
        rw [hl] at hok
        cases hok
        exact Or.inr (Or.inl ⟨pyStrOf idv, m, hl, rfl⟩)
      | none =>
        rw [hl] at hok
        cases hcb : createFromLiveBody sport now db item (pyStrOf idv) with
        | ok db2 =>
          rw [hcb] at hok
          cases hok
          rcases createFromLiveBody_shape hl hcb with h | ⟨r, hr, hi⟩
          · exact Or.inl h
          · exact Or.inr (Or.inr ⟨r, by rw [hr]; exact hl, hi⟩)
        | error e =>
          rw [hcb] at hok
          cases hok
          exact Or.inl rfl
    · rw [if_pos ht] at hok
      cases hok
      exact Or.inl rfl

/-- Shape of one observation: the store is unchanged, one stored row is
rewritten in place by the in-play update, or a fresh row is appended for an
event that had none. -/
lemma runObs_cases (db : Store) (o : Obs) :
    runObs db o = db ∨
    (∃ eid m0 sport now md, lookupStore db eid = some m0 ∧
      runObs db o = updateByEventId db eid (updateExistingInPlay sport now md)) ∨
    ∃ r : Match, lookupStore db r.event_id = none ∧ runObs db o = insertRow db r := by
  cases o with
  | upcoming sport now item =>
    simp only [runObs]
    cases hp : processUpcomingItem sport now db item with
    | error e => exact Or.inl rfl
    | ok db2 =>
      rcases processUpcomingItem_shape hp with h | ⟨r, hr, hi⟩
      · exact Or.inl h
      · exact Or.inr (Or.inr ⟨r, hr, hi⟩)
  | inplay sport now item =>
    simp only [runObs]
    cases hp : processInPlayItem sport now db item with
    | error e => exact Or.inl rfl
    | ok db2 =>
      rcases processInPlayItem_shape hp with h | ⟨eid, m0, hsome, hu⟩ | ⟨r, hr, hi⟩
      · exact Or.inl h
      · exact Or.inr (Or.inl ⟨eid, m0, sport, now, item, hsome, hu⟩)
      · exact Or.inr (Or.inr ⟨r, hr, hi⟩)

/-- Frame property of one observation on a stored row: it survives, either
untouched or rewritten by the in-play update of an existing row. -/
lemma runObs_row_frame (db : Store) (o : Obs) (e : String) (m : Match)
    (hl : lookupStore db e = some m) :
    lookupStore (runObs db o) e = some m ∨
    ∃ sport now md, lookupStore (runObs db o) e = some (updateExistingInPlay sport now md m) := by
  rcases runObs_cases db o with h | ⟨eid, m0, sport, now, md, hsome, h⟩ | ⟨r, hnone, h⟩
  · rw [h]
    exact Or.inl hl
  · rw [h, lookup_update db eid _ (fun mm => updateExistingInPlay_event_id sport now md mm), hl]
    by_cases he : m.event_id = eid
    · exact Or.inr ⟨sport, now, md, by simp [he]⟩
    · exact Or.inl (by simp [he])
  · rw [h, lookup_insert, hl]
    exact Or.inl rfl

example : parse_scores (.str "1-0") = (1, 0) := by decide

example : parse_scores (.str "2:1") = (2, 1) := by decide

example : parse_scores (.str "1 0") = (1, 0) := by decide

example : parse_scores (.str "garbage") = (0, 0) := by decide

example : parse_scores .null = (0, 0) := by rfl

example : parse_scores (.list []) = (0, 0) := by rfl

example : parse_scores (.dict [("home", .int 2), ("away", .str "1")]) = (2, 1) := by decide

example : pyStrToFloat "999" = some 999 := by decide

example : pyStrToFloat " 2 " = some 2 := by decide

example : pyStrToFloat "x9" = none := by decide

example :
    extract_odds_from_api_response
      (.list [.dict [("odds", .num 2)], .dict [("odds", .num 3)]]) "basketball" =
    .ok ⟨some 2, some 3, none⟩ := by decide

example :
    extract_odds_from_api_response
      (.dict [("main", .dict [("sp", .dict [("to_win_match",
        .dict [("odds", .list [.dict [("odds", .num 2)], .dict [("odds", .num 4)]])])])])])
      "tennis" =
    .ok ⟨some 2, some 4, none⟩ := by decide

/-- Claim C6: `parse_scores` is total and never raises.  On `"1-0"`,
`"2:1"` and `"1 0"` it returns `(1,0)`, `(2,1)`, `(1,0)`; `"garbage"`,
`None`, `[]` and every other value that is neither a dict nor a string
yield `(0, 0)`. -/
theorem parse_scores_contract :
    parse_scores (.str "1-0") = (1, 0) ∧
    parse_scores (.str "2:1") = (2, 1) ∧
    parse_scores (.str "1 0") = (1, 0) ∧
    parse_scores (.str "garbage") = (0, 0) ∧
    parse_scores .null = (0, 0) ∧
    parse_scores (.list []) = (0, 0) ∧
    ∀ v : JVal, (∀ kvs, v ≠ .dict kvs) → (∀ s, v ≠ .str s) → parse_scores v = (0, 0) := by
  refine ⟨by decide, by decide, by decide, by decide, rfl, rfl, ?_⟩
  intro v hd hs
  cases v with
  | dict kvs => exact absurd rfl (hd kvs)
  | str s => exact absurd rfl (hs s)
  | null => rfl
  | bool b => rfl
  | int n => rfl
  | num q => rfl
  | list xs => rfl

theorem parse_scores_contract_check : parse_scores (.bool true) = (0, 0) :=
  parse_scores_contract.2.2.2.2.2.2 (.bool true)
    (fun _ h => JVal.noConfusion h) (fun _ h => JVal.noConfusion h)

/-- Claim C7: for a favorite of `home` or `away`, the trailing detector
answers exactly `(favorite = home ∧ home < away) ∨ (favorite = away ∧
away < home)` on the coerced score (so ties are never trailing), and every
score-coercion failure answers `false`. -/
theorem is_favorite_trailing_contract (m : Match) (s : JVal)
    (hfav : m.pre_match_favorite = "home" ∨ m.pre_match_favorite = "away") :
    (∀ hs as_ : Int, coerceScores s = some (hs, as_) →
      (is_favorite_trailing m s = true ↔
        (m.pre_match_favorite = "home" ∧ hs < as_) ∨
        (m.pre_match_favorite = "away" ∧ as_ < hs))) ∧
    (coerceScores s = none → is_favorite_trailing m s = false) := by
  constructor
  · intro hs as_ hc
    unfold is_favorite_trailing
    rw [hc]
    rcases hfav with h | h <;> rw [h] <;> simp
  · intro hc
    unfold is_favorite_trailing
    rw [hc]

theorem is_favorite_trailing_contract_check :
    is_favorite_trailing baseMatch (.str "1-2") = true :=
  ((is_favorite_trailing_contract baseMatch (.str "1-2") (Or.inl rfl)).1 1 2
    (by decide)).mpr (Or.inl ⟨rfl, by decide⟩)

/-- Reduction of the phase classifier on a basketball payload to the minute
window tree. -/
lemma parse_match_time_basketball (v : JVal) :
    parse_match_time (timedObs "basketball" v) =
      (let tm := match pyInt v, pyInt (.int 0) with
        | some a, some b => (a, b)
        | _, _ => ((0 : Int), (0 : Int))
       if 22 ≤ tm.1 ∧ tm.1 ≤ 26 then ⟨"halftime", true, .bool false⟩
       else if 26 < tm.1 ∧ tm.1 < 46 then ⟨"third_quarter", false, .bool false⟩
       else if 46 ≤ tm.1 then ⟨"fourth_quarter", false, .bool false⟩
       else ⟨"first_half", false, .bool false⟩) := by
  unfold parse_match_time timedObs
  simp [jGet, dictLookup, jStrEq]

/-- Reduction of the phase classifier on a handball payload to the minute
window tree. -/
lemma parse_match_time_handball (v : JVal) :
    parse_match_time (timedObs "handball" v) =
      (let tm := match pyInt v, pyInt (.int 0) with
        | some a, some b => (a, b)
        | _, _ => ((0 : Int), (0 : Int))
       if 28 ≤ tm.1 ∧ tm.1 ≤ 32 then ⟨"halftime", true, .bool false⟩
       else if 32 < tm.1 then ⟨"second_half", false, .bool false⟩
       else ⟨"first_half", false, .bool false⟩) := by
  unfold parse_match_time timedObs
  simp [jGet, dictLookup, jStrEq]

/-- Claim C8: the phase windows of `parse_match_time`.  Basketball minutes
in `[22, 26]` are halftime, `(26, 46)` third quarter, `≥ 46` fourth
quarter, everything else first half; handball minutes in `[28, 32]` are
halftime, `> 32` second half, otherwise first half; a `TM` field that
`int()` cannot parse counts as minute 0 (first half, not halftime) for both
sports, and the classifier is a total function. -/
theorem parse_match_time_windows :
    (∀ tm : Int,
      ((22 ≤ tm ∧ tm ≤ 26) →
        (parse_match_time (timedObs "basketball" (.int tm))).status = "halftime" ∧
        (parse_match_time (timedObs "basketball" (.int tm))).is_halftime = true) ∧
      ((26 < tm ∧ tm < 46) →
        (parse_match_time (timedObs "basketball" (.int tm))).status = "third_quarter" ∧
        (parse_match_time (timedObs "basketball" (.int tm))).is_halftime = false) ∧
      (46 ≤ tm →
        (parse_match_time (timedObs "basketball" (.int tm))).status = "fourth_quarter" ∧
        (parse_match_time (timedObs "basketball" (.int tm))).is_halftime = false) ∧
      (tm < 22 →
        (parse_match_time (timedObs "basketball" (.int tm))).status = "first_half" ∧
        (parse_match_time (timedObs "basketball" (.int tm))).is_halftime = false)) ∧
    (∀ tm : Int,
      ((28 ≤ tm ∧ tm ≤ 32) →
        (parse_match_time (timedObs "handball" (.int tm))).status = "halftime" ∧
        (parse_match_time (timedObs "handball" (.int tm))).is_halftime = true) ∧
      (32 < tm →
        (parse_match_time (timedObs "handball" (.int tm))).status = "second_half" ∧
        (parse_match_time (timedObs "handball" (.int tm))).is_halftime = false) ∧
      (tm < 28 →
        (parse_match_time (timedObs "handball" (.int tm))).status = "first_half" ∧
        (parse_match_time (timedObs "handball" (.int tm))).is_halftime = false)) ∧
    (∀ v : JVal, pyInt v = none →
      (parse_match_time (timedObs "basketball" v)).status = "first_half" ∧
      (parse_match_time (timedObs "basketball" v)).is_halftime = false ∧
      (parse_match_time (timedObs "handball" v)).status = "first_half" ∧
      (parse_match_time (timedObs "handball" v)).is_halftime = false) := by
  refine ⟨?_, ?_, ?_⟩
  · intro tm
    rw [parse_match_time_basketball]
    refine ⟨fun h => ?_, fun h => ?_, fun h => ?_, fun h => ?_⟩ <;>
      simp only [pyInt] <;> split_ifs <;>
        first | exact ⟨rfl, rfl⟩ | omega
  · intro tm
    rw [parse_match_time_handball]
    refine ⟨fun h => ?_, fun h => ?_, fun h => ?_⟩ <;>
      simp only [pyInt] <;> split_ifs <;>
        first | exact ⟨rfl, rfl⟩ | omega
  · intro v hv
    rw [parse_match_time_basketball, parse_match_time_handball]
    simp only [hv]
    norm_num

theorem parse_match_time_windows_check :
    (parse_match_time (timedObs "basketball" (.int 24))).status = "halftime" ∧
    (parse_match_time (timedObs "basketball" (.int 10))).status = "first_half" ∧
    (parse_match_time (timedObs "basketball" (.int 50))).status = "fourth_quarter" ∧
    (parse_match_time (timedObs "handball" (.int 30))).status = "halftime" ∧
    (parse_match_time (timedObs "handball" (.int 10))).status = "first_half" ∧
    (parse_match_time (timedObs "basketball" (.str "x"))).status = "first_half" :=
  ⟨((parse_match_time_windows.1 24).1 (by omega)).1,
   ((parse_match_time_windows.1 10).2.2.2 (by omega)).1,
   ((parse_match_time_windows.1 50).2.2.1 (by omega)).1,
   ((parse_match_time_windows.2.1 30).1 (by omega)).1,
   ((parse_match_time_windows.2.1 10).2.2 (by omega)).1,
   (parse_match_time_windows.2.2 (.str "x") (by decide)).1⟩

/-- Claim C1: once a stored row's `favorite_trailing_at_halftime` flag is
true, no later observation processed by `fetch_and_update_matches` —
upcoming or in-play, in any order — ever resets it. -/
theorem favorite_trailing_sticky (os : List Obs) (db : Store) (e : String) (m : Match)
    (hl : lookupStore db e = some m) (hf : m.favorite_trailing_at_halftime = true) :
    ∀ m', lookupStore (runObsList db os) e = some m' →
      m'.favorite_trailing_at_halftime = true := by
  induction os generalizing db m with
  | nil =>
    intro m' hm'
    simp only [runObsList] at hm'
    rw [hl] at hm'
    cases hm'
    exact hf
  | cons o os ih =>
    intro m' hm'
    simp only [runObsList] at hm'
    rcases runObs_row_frame db o e m hl with h | ⟨sport, now, md, h⟩
    · exact ih (runObs db o) m h hf m' hm'
    · exact ih (runObs db o) _ h (updateExistingInPlay_trailing_mono sport now md m hf) m' hm'

theorem favorite_trailing_sticky_check :
    (lookupStore (runObsList ⟨[{ baseMatch with favorite_trailing_at_halftime := true }], 2⟩
        [.inplay "basketball" 0 (hpObs 4 6)]) "7").all
      (fun m => m.favorite_trailing_at_halftime) = true := by
  cases hl : lookupStore (runObsList ⟨[{ baseMatch with favorite_trailing_at_halftime := true }], 2⟩
      [.inplay "basketball" 0 (hpObs 4 6)]) "7" with
  | none => rfl
  | some m' =>
    simp only [Option.all]
    exact favorite_trailing_sticky [.inplay "basketball" 0 (hpObs 4 6)]
      ⟨[{ baseMatch with favorite_trailing_at_halftime := true }], 2⟩ "7"
      { baseMatch with favorite_trailing_at_halftime := true } (by decide) rfl m' hl

/-- The trailing detector reads only the frozen favorite from the row. -/
lemma is_favorite_trailing_only_favorite (m m' : Match) (s : JVal)
    (h : m'.pre_match_favorite = m.pre_match_favorite) :
    is_favorite_trailing m' s = is_favorite_trailing m s := by
  unfold is_favorite_trailing
  rw [h]

/-- Claim C3 counterexample: an existing row observed at halftime with the
favorite trailing gets its halftime odds snapshot taken, and a second such
observation with different live odds overwrites it — the first snapshot
does not win. -/
theorem halftime_snapshot_overwritten :
    (lookupStore (runObsList ⟨[baseMatch], 2⟩
        [.inplay "basketball" 0 (hpObs 4 6)]) "7").map Match.halftime_home_odds =
      some (some 4) ∧
    (lookupStore (runObsList ⟨[baseMatch], 2⟩
        [.inplay "basketball" 0 (hpObs 4 6), .inplay "basketball" 0 (hpObs 5 7)]) "7").map
        Match.halftime_home_odds =
      some (some 5) := by
  constructor <;> decide

/-- Claim C3 (amended): on an in-play observation of an existing row, the
halftime odds fields are written on every observation whose phase is
halftime and whose trailing detector fires and whose live odds extract —
the latest snapshot overwrites earlier ones — and they are left untouched
when the phase is not halftime or the detector does not fire. -/
theorem halftime_snapshot_last_write (sport : String) (now : Int) (md : JVal) (m : Match) :
    ((parse_match_time (jSetKey md "sport" (.str sport))).is_halftime = true →
     is_favorite_trailing m
       (validScores ((jGet (jSetKey md "sport" (.str sport)) "ss").getD (.dict []))) = true →
     pyTruthy ((jGet (jSetKey md "sport" (.str sport)) "odds").getD (.dict [])) = true →
     ∀ (tri : OddsAcc) (h a : Rat),
       extract_odds_from_api_response
         ((jGet (jSetKey md "sport" (.str sport)) "odds").getD (.dict [])) sport = .ok tri →
       tri.home = some h → tri.away = some a →
       (updateExistingInPlay sport now md m).halftime_home_odds = some h ∧
       (updateExistingInPlay sport now md m).halftime_away_odds = some a) ∧
    ((parse_match_time (jSetKey md "sport" (.str sport))).is_halftime = false →
      (updateExistingInPlay sport now md m).halftime_home_odds = m.halftime_home_odds ∧
      (updateExistingInPlay sport now md m).halftime_away_odds = m.halftime_away_odds ∧
      (updateExistingInPlay sport now md m).halftime_draw_odds = m.halftime_draw_odds) ∧
    ((parse_match_time (jSetKey md "sport" (.str sport))).is_halftime = true →
     is_favorite_trailing m
       (validScores ((jGet (jSetKey md "sport" (.str sport)) "ss").getD (.dict []))) = false →
      (updateExistingInPlay sport now md m).halftime_home_odds = m.halftime_home_odds ∧
      (updateExistingInPlay sport now md m).halftime_away_odds = m.halftime_away_odds ∧
      (updateExistingInPlay sport now md m).halftime_draw_odds = m.halftime_draw_odds) := by
  refine ⟨?_, ?_, ?_⟩
  · intro hht htr hodds tri h a hext hh ha
    unfold updateExistingInPlay
    simp only []
    rw [if_pos hht]
    split
    · rw [hext]
      simp only [hh, ha]
      split <;> exact ⟨rfl, rfl⟩
    · rename_i hcon
      exact absurd htr hcon
  · intro hht
    unfold updateExistingInPlay
    simp only []
    rw [if_neg (by simp [hht])]
    exact ⟨rfl, rfl, rfl⟩
  · intro hht htr
    unfold updateExistingInPlay
    simp only []
    rw [if_pos hht]
    split
    · rename_i hcon
      exact absurd (htr.symm.trans hcon) Bool.false_ne_true
    · exact ⟨rfl, rfl, rfl⟩

theorem halftime_snapshot_last_write_check :
    (updateExistingInPlay "basketball" 0 (hpObs 5 7) baseMatch).halftime_home_odds = some 5 ∧
    (updateExistingInPlay "basketball" 0 (hpObs 5 7) baseMatch).halftime_away_odds = some 7 :=
  (halftime_snapshot_last_write "basketball" 0 (hpObs 5 7) baseMatch).1
    (by decide) (by decide) (by decide) ⟨some 5, some 7, none⟩ 5 7 (by decide) rfl rfl

/-- Claim C9 counterexample: in a resolved basketball market, the first
listed outcome carries the explicit away header `'2'`, yet its price (5) is
assigned to the home odds — list position is OR-ed with the token test, not
a fallback. -/
theorem outcome_position_overrides_token :
    extract_odds_from_api_response
      (.dict [("sp", .dict [("full_time_result", .dict [("odds", .list
        [.dict [("header", .str "2"), ("odds", .num 5)],
         .dict [("header", .str "2"), ("odds", .num 7)]])])])])
      "basketball" = .ok ⟨some 5, some 7, none⟩ := by decide

/-- Claim C9 (amended): each outcome of a resolved market is matched by the
disjunction of explicit token and list position, with the home test first;
consequently any priced outcome at list position 0 whose name is absent is
assigned to the home odds even when its header marks it as the away side. -/
theorem assignOutcome_position_zero_home (sport : String) (st : OddsAcc) (q : Rat) :
    assignOutcome sport st 0 (.dict [("header", .str "2"), ("odds", .num q)]) =
      .ok { st with home := some q } := rfl

/-- Claim C10: an upcoming or live-synthesized event whose extracted home
or away odds are exactly the 999.0 sentinel is skipped outright — no Match
row is created and the store is unchanged — even when 999.0 came back as a
genuine price from the provider. -/
theorem sentinel_999_skips (sport : String) (now : Int) (db : Store) (item : JVal)
    (idv : JVal) (tri : OddsAcc)
    (hid : pyGetAttr item "id" .null = .ok idv)
    (htv : pyTruthy idv = true)
    (hnone : lookupStore db (pyStrOf idv) = none)
    (hext : extract_odds_from_api_response ((jGet item "odds").getD (.dict [])) sport = .ok tri)
    (h999 : tri.home = some 999 ∨ tri.away = some 999) :
    processUpcomingItem sport now db item = .ok db ∧
    processInPlayItem sport now db item = .ok db := by
  have h999d : tri.home.getD 999 = 999 ∨ tri.away.getD 999 = 999 :=
    h999.imp (fun h => by rw [h]; rfl) (fun h => by rw [h]; rfl)
  constructor
  · unfold processUpcomingItem
    rw [hid]
    simp only []
    rw [if_neg (not_not_intro htv), hnone]
    by_cases ho : pyTruthy ((jGet item "odds").getD (.dict [])) = true
    · rw [if_neg (not_not_intro ho)]
      have hb : upcomingTryBody sport now db item (pyStrOf idv)
          ((jGet item "odds").getD (.dict [])) = .ok db := by
        unfold upcomingTryBody
        rw [hext]
        simp only []
        by_cases hnn : tri.home.isNone = true ∧ tri.away.isNone = true
        · rw [if_pos hnn]
        · rw [if_neg hnn, if_pos h999d]
      rw [hb]
    · rw [if_pos ho]
  · unfold processInPlayItem
    rw [hid]
    simp only []
    rw [if_neg (not_not_intro htv), hnone]
    have hb : createFromLiveBody sport now db item (pyStrOf idv) = .ok db := by
      unfold createFromLiveBody
      simp only []
      by_cases ho : pyTruthy ((jGet item "odds").getD (.dict [])) = true
      · rw [if_neg (not_not_intro ho), hext]
        simp only []
        by_cases hnn : tri.home.isNone = true ∨ tri.away.isNone = true
        · rw [if_pos hnn]
        · rw [if_neg hnn, if_pos h999d]
      · rw [if_pos ho]
    rw [hb]

theorem sentinel_999_skips_check :
    processUpcomingItem "basketball" 0 emptyStore (upObs "9" 999 2) = .ok emptyStore ∧
    processInPlayItem "basketball" 0 emptyStore (upObs "9" 999 2) = .ok emptyStore :=
  sentinel_999_skips "basketball" 0 emptyStore (upObs "9" 999 2) (.str "9")
    ⟨some 999, some 2, none⟩ rfl (by decide) (by decide) (by decide) (Or.inl rfl)

/-- Claim C2 (code evidence): re-observing an existing scheduled match from
upcoming data is a complete no-op — the payload carries fresh odds 4/6, yet
the stored pre-match odds stay 2/3 and nothing else is touched, because the
whole upcoming-item body is guarded by `if not existing_match:` and its
inner refresh branch is unreachable. -/
theorem upcoming_existing_row_not_refreshed :
    processUpcomingItem "basketball" 0 ⟨[{ baseMatch with status := "scheduled" }], 2⟩
        (upObs "7" 4 6) =
      .ok ⟨[{ baseMatch with status := "scheduled" }], 2⟩ ∧
    (lookupStore (processUpcomingBatch "basketball" 0
        ⟨[{ baseMatch with status := "scheduled" }], 2⟩ [upObs "7" 4 6]) "7").map
      Match.pre_match_home_odds = some 2 := by
  constructor <;> decide

/-- Claim C4 (code evidence): in an upcoming batch, a single item whose
`home` field is a bare string raises `AttributeError`, which the per-item
handler (`except (ValueError, TypeError)`) does not catch: the whole batch
aborts and the following valid item is never stored, although the same
valid item alone is stored fine. -/
theorem upcoming_item_failure_aborts_batch :
    processUpcomingBatch "basketball" 0 emptyStore [badHomeObs, upObs "9" 2 3] = emptyStore ∧
    (lookupStore (processUpcomingBatch "basketball" 0 emptyStore [upObs "9" 2 3]) "9").isSome
      = true := by
  constructor <;> decide

/-- Generic sticky-column preservation: if the projection `f` survives the
in-play update and the mark transform, then one system operation keeps
`f` true on every row of a tracked event, and keeps the event tracked. -/
lemma runSysOp_flag_inv (db : Store) (s : SysOp) (e : String) (f : Match → Bool)
    (hupd : ∀ sport now md m, f m = true → f (updateExistingInPlay sport now md m) = true)
    (hmark : ∀ (mid : Nat) (t : String) m, f m = true →
      f (if m.id = mid then
           (if t = "match_start" then { m with start_notification_sent := true }
            else if t = "halftime_trailing" then { m with halftime_notification_sent := true }
            else m)
         else m) = true)
    (hex : ∃ m ∈ db.rows, m.event_id = e)
    (hall : ∀ m ∈ db.rows, m.event_id = e → f m = true) :
    (∃ m ∈ (runSysOp db s).rows, m.event_id = e) ∧
      ∀ m ∈ (runSysOp db s).rows, m.event_id = e → f m = true := by
  cases s with
  | mark mid t =>
    simp only [runSysOp, mark_notification_sent]
    constructor
    · obtain ⟨m, hm, he⟩ := hex
      refine ⟨_, List.mem_map_of_mem _ hm, ?_⟩
      by_cases h1 : m.id = mid <;> by_cases h2 : t = "match_start" <;>
        by_cases h3 : t = "halftime_trailing" <;> simp [h1, h2, h3, he]
    · intro m' hm' he'
      obtain ⟨m, hm, rfl⟩ := List.mem_map.mp hm'
      have he0 : m.event_id = e := by
        revert he'
        by_cases h1 : m.id = mid <;> by_cases h2 : t = "match_start" <;>
          by_cases h3 : t = "halftime_trailing" <;> simp [h1, h2, h3]
      exact hmark mid t m (hall m hm he0)
  | obs o =>
    simp only [runSysOp]
    rcases runObs_cases db o with h | ⟨eid, m0, sport, now, md, hsome, h⟩ | ⟨r, hnone, h⟩
    · rw [h]
      exact ⟨hex, hall⟩
    · rw [h]
      simp only [updateByEventId]
      constructor
      · obtain ⟨m, hm, he⟩ := hex
        refine ⟨_, List.mem_map_of_mem _ hm, ?_⟩
        by_cases h2 : m.event_id = eid
        · rw [if_pos h2, updateExistingInPlay_event_id]
          exact he
        · rw [if_neg h2]
          exact he
      · intro m' hm' he'
        obtain ⟨m, hm, rfl⟩ := List.mem_map.mp hm'
        have he0 : m.event_id = e := by
          by_cases h2 : m.event_id = eid
          · rw [if_pos h2, updateExistingInPlay_event_id] at he'
            exact he'
          · rw [if_neg h2] at he'
            exact he'
        have hf := hall m hm he0
        by_cases h2 : m.event_id = eid
        · rw [if_pos h2]
          exact hupd sport now md m hf
        · rw [if_neg h2]
          exact hf
    · rw [h]
      simp only [insertRow]
      constructor
      · obtain ⟨m, hm, he⟩ := hex
        exact ⟨m, List.mem_append_left _ hm, he⟩
      · intro m' hm' he'
        rcases List.mem_append.mp hm' with hmem | hmem
        · exact hall m' hmem he'
        · rw [List.mem_singleton] at hmem
          subst hmem
          exfalso
          obtain ⟨m, hm, he0⟩ := hex
          have hnone' := hnone
          unfold lookupStore at hnone'
          have := List.find?_eq_none.mp hnone' m hm
          exact this (decide_eq_true (by rw [he0, he']))

/-- Sticky-column preservation over an arbitrary sequence of system
operations. -/
lemma runSysList_flag_inv (ops : List SysOp) (db : Store) (e : String) (f : Match → Bool)
    (hupd : ∀ sport now md m, f m = true → f (updateExistingInPlay sport now md m) = true)
    (hmark : ∀ (mid : Nat) (t : String) m, f m = true →
      f (if m.id = mid then
           (if t = "match_start" then { m with start_notification_sent := true }
            else if t = "halftime_trailing" then { m with halftime_notification_sent := true }
            else m)
         else m) = true)
    (hex : ∃ m ∈ db.rows, m.event_id = e)
    (hall : ∀ m ∈ db.rows, m.event_id = e → f m = true) :
    (∃ m ∈ (runSysList db ops).rows, m.event_id = e) ∧
      ∀ m ∈ (runSysList db ops).rows, m.event_id = e → f m = true := by
  induction ops generalizing db with
  | nil => exact ⟨hex, hall⟩
  | cons s ops ih =>
    simp only [runSysList]
    obtain ⟨hex', hall'⟩ := runSysOp_flag_inv db s e f hupd hmark hex hall
    exact ih (runSysOp db s) hex' hall'

/-- The halftime-trailing selector never returns a row whose halftime
notification flag is already set. -/
lemma selector_halftime_excludes (db : Store) (now : Int) (subCount : String → Nat) (e : String)
    (hall : ∀ m ∈ db.rows, m.event_id = e → m.halftime_notification_sent = true) :
    ∀ m' ∈ (get_matches_for_notification db now subCount).2, m'.event_id ≠ e := by
  intro m' hm' he
  unfold get_matches_for_notification at hm'
  simp only [List.mem_filter] at hm'
  obtain ⟨⟨hmem, hsel⟩, _⟩ := hm'
  have hflag := hall m' hmem he
  simp only [decide_eq_true_eq] at hsel
  rw [hflag] at hsel
  exact Bool.noConfusion hsel.2.2

/-- The match-start selector never returns a row whose start notification
flag is already set. -/
lemma selector_start_excludes (db : Store) (now : Int) (subCount : String → Nat) (e : String)
    (hall : ∀ m ∈ db.rows, m.event_id = e → m.start_notification_sent = true) :
    ∀ m' ∈ (get_matches_for_notification db now subCount).1, m'.event_id ≠ e := by
  intro m' hm' he
  unfold get_matches_for_notification at hm'
  simp only [List.mem_filter] at hm'
  obtain ⟨⟨hmem, hsel⟩, _⟩ := hm'
  have hflag := hall m' hmem he
  simp only [decide_eq_true_eq] at hsel
  rw [hflag] at hsel
  exact Bool.noConfusion hsel.2.2.2

/-- Claim C5: `mark_notification_sent` sets the sticky flag of the marked
row for the given kind, and once every stored row of an event carries the
flag, no later `get_matches_for_notification` pass — after any sequence of
observations and marks — selects that event for that kind: the flags are
never cleared, so at most one notification per event per kind is ever
selected. -/
theorem notification_dedup (db : Store) (e : String) (ops : List SysOp) (now : Int)
    (subCount : String → Nat) :
    ((∃ m ∈ db.rows, m.event_id = e) →
     (∀ m ∈ db.rows, m.event_id = e → m.halftime_notification_sent = true) →
     ∀ m' ∈ (get_matches_for_notification (runSysList db ops) now subCount).2,
       m'.event_id ≠ e) ∧
    ((∃ m ∈ db.rows, m.event_id = e) →
     (∀ m ∈ db.rows, m.event_id = e → m.start_notification_sent = true) →
     ∀ m' ∈ (get_matches_for_notification (runSysList db ops) now subCount).1,
       m'.event_id ≠ e) ∧
    (∀ (mid : Nat) m', m' ∈ (mark_notification_sent db mid "halftime_trailing").rows →
      m'.id = mid → m'.halftime_notification_sent = true) ∧
    (∀ (mid : Nat) m', m' ∈ (mark_notification_sent db mid "match_start").rows →
      m'.id = mid → m'.start_notification_sent = true) := by
  refine ⟨?_, ?_, ?_, ?_⟩
  · intro hex hall
    have h := runSysList_flag_inv ops db e (fun m => m.halftime_notification_sent)
      (fun sport now md m hf => by
        simp only [updateExistingInPlay_halftime_flag]
        exact hf)
      (fun mid t m hf => by
        by_cases h1 : m.id = mid <;> by_cases h2 : t = "match_start" <;>
          by_cases h3 : t = "halftime_trailing" <;> simp [h1, h2, h3, hf])
      hex hall
    exact selector_halftime_excludes _ now subCount e h.2
  · intro hex hall
    have h := runSysList_flag_inv ops db e (fun m => m.start_notification_sent)
      (fun sport now md m hf => by
        simp only [updateExistingInPlay_start_flag]
        exact hf)
      (fun mid t m hf => by
        by_cases h1 : m.id = mid <;> by_cases h2 : t = "match_start" <;>
          by_cases h3 : t = "halftime_trailing" <;> simp [h1, h2, h3, hf])
      hex hall
    exact selector_start_excludes _ now subCount e h.2
  · intro mid m' hm' hid
    unfold mark_notification_sent at hm'
    obtain ⟨m, hm, rfl⟩ := List.mem_map.mp hm'
    by_cases h1 : m.id = mid
    · simp [h1]
    · rw [if_neg h1] at hid
      exact absurd hid h1
  · intro mid m' hm' hid
    unfold mark_notification_sent at hm'
    obtain ⟨m, hm, rfl⟩ := List.mem_map.mp hm'
    by_cases h1 : m.id = mid
    · simp [h1]
    · rw [if_neg h1] at hid
      exact absurd hid h1

theorem notification_dedup_check :
    ((get_matches_for_notification
        (runSysList ⟨[{ baseMatch with
            status := "halftime"
            favorite_trailing_at_halftime := true
            halftime_notification_sent := true }], 2⟩
          [.obs (.inplay "basketball" 0 (hpObs 4 6))]) 0 (fun _ => 1)).2).all
      (fun m => m.event_id ≠ "7") = true := by
  have h := (notification_dedup
      ⟨[{ baseMatch with
          status := "halftime"
          favorite_trailing_at_halftime := true
          halftime_notification_sent := true }], 2⟩
      "7" [.obs (.inplay "basketball" 0 (hpObs 4 6))] 0 (fun _ => 1)).1
    ⟨_, List.mem_singleton.mpr rfl, rfl⟩
    (fun m hm _ => by
      rw [List.mem_singleton] at hm
      subst hm
      rfl)
  exact List.all_eq_true.mpr (fun m hm => decide_eq_true (h m hm))
